import Mathlib

/-!
Shallow embedding of the research-agent orchestration core
(`backend/src/agent/graph.py` together with the prompt templates of
`backend/src/agent/prompts.py`).  External calls (the OpenRouter chat models
and the Tavily search tool) are modelled as a pure oracle; each LangGraph
node is a Lean function from its input state to the state delta that the
Python function returns, and the LangGraph scheduler is a small-step machine
over the graph wiring at the bottom of `graph.py`.
-/

namespace Agent

/-- One Tavily search result: the fields of a `search_results` entry that
`graph.py` reads (`title`, `url`, `content`). -/
structure Source where
  title : String
  url : String
  content : String
deriving Repr, DecidableEq

/-- One conversation message (`messages` channel); `role` is "human" for the
user question and "ai" for the `AIMessage` appended by `finalize_answer`. -/
structure Message where
  role : String
  content : String
deriving Repr, DecidableEq

/-- Modelled from the spec: the run configuration (`agent/configuration.py` is
absent from `src/`).  Spec section 6: number of initial queries, the three
model identifiers, and the maximum loop count, all read-only for the run. -/
structure Configuration where
  query_generator_model : String
  reflection_model : String
  answer_model : String
  number_of_initial_queries : Int
  max_research_loops : Int
deriving Repr, DecidableEq

/-- The union of the LangGraph state channels that `graph.py` reads and
writes (`OverallState` / `QueryGenerationState` / `ReflectionState` /
`WebSearchState`).  The merge (reducer) policy of each channel is applied by
the `apply*Delta` functions below. -/
structure OverallState where
  messages : List Message
  query_list : List String
  search_query : List String
  web_research_result : List String
  sources_gathered : List Source
  initial_search_query_count : Option Int
  max_research_loops : Option Int
  research_loop_count : Int
  reflection_model : Option String
  answer_model : Option String
  is_sufficient : Bool
  knowledge_gap : String
  follow_up_queries : List String
deriving Repr, DecidableEq

/-- The keyword arguments of `query_writer_instructions.format(...)` in
`generate_query`. -/
structure QueryPrompt where
  current_date : String
  research_topic : String
  number_queries : Int
deriving Repr, DecidableEq

/-- The keyword arguments of `reflection_instructions.format(...)` in
`reflection`. -/
structure ReflectPrompt where
  current_date : String
  research_topic : String
  summaries : String
deriving Repr, DecidableEq

/-- The keyword arguments of `answer_instructions.format(...)` in
`finalize_answer`. -/
structure AnswerPrompt where
  current_date : String
  research_topic : String
  summaries : String
  source_list : String
deriving Repr, DecidableEq

/-- The structured output of the reflection model (`Reflection` schema). -/
structure ReflectionOutcome where
  is_sufficient : Bool
  knowledge_gap : String
  follow_up_queries : List String
deriving Repr, DecidableEq

/-- Pure oracle for the external request/response calls (spec section 4.2):
structured query generation, Tavily search, structured reflection, and final
text generation.  Each LLM call also receives the resolved model name, as
`get_llm(configurable, model_name)` does in `graph.py`. -/
structure Oracle where
  genQueries : String → QueryPrompt → List String
  search : String → List Source
  reflectResult : String → ReflectPrompt → ReflectionOutcome
  answerText : String → AnswerPrompt → String

/-- A LangGraph `Send(node, {"search_query": q})` dispatch. -/
structure Send where
  node : String
  search_query : String
deriving Repr, DecidableEq

/-- The value returned by the conditional-edge function `evaluate_research`:
either a node name (the string `"finalize_answer"`) or a list of `Send`
dispatches. -/
inductive RouteResult where
  | node (name : String)
  | sends (l : List Send)
deriving Repr, DecidableEq

/-- Modelled from the spec: `get_research_topic` (`agent/utils.py` is absent
from `src/`).  The research topic is extracted from the conversation: a
single message contributes its content, otherwise the messages are joined. -/
def get_research_topic (msgs : List Message) : String :=
  match msgs with
  | [m] => m.content
  | _ => String.intercalate "\n" (msgs.map (fun m => m.role ++ ": " ++ m.content))

/-- Python `state.get(key) or default` on a string-valued channel: the
default is used when the override is `None` or falsy (the empty string). -/
def pyOrStr (v : Option String) (d : String) : String :=
  match v with
  | none => d
  | some s => if s = "" then d else s

/-- The effective number of initial queries in `generate_query`: the
configured default is substituted only when `initial_search_query_count`
`is None` (so an explicit `0` is kept). -/
def effectiveInitialQueryCount (st : OverallState) (cfg : Configuration) : Int :=
  match st.initial_search_query_count with
  | none => cfg.number_of_initial_queries
  | some k => k

/-- The effective loop ceiling in `evaluate_research`:
`state.get("max_research_loops") if ... is not None else
configurable.max_research_loops`. -/
def effectiveMaxLoops (st : OverallState) (cfg : Configuration) : Int :=
  match st.max_research_loops with
  | none => cfg.max_research_loops
  | some m => m

/-- The model name used by `reflection`:
`state.get("reflection_model") or configurable.reflection_model`. -/
def reflectionModelName (st : OverallState) (cfg : Configuration) : String :=
  pyOrStr st.reflection_model cfg.reflection_model

/-- The model name used by `finalize_answer`:
`state.get("answer_model") or configurable.answer_model`. -/
def answerModelName (st : OverallState) (cfg : Configuration) : String :=
  pyOrStr st.answer_model cfg.answer_model

/-- The state delta returned by `generate_query`. -/
structure QueryGenerationDelta where
  query_list : List String
deriving Repr, DecidableEq

/-- Node `generate_query`: resolve the query count, format the query-writer
prompt, call the structured model, and return `{"query_list": result.query}`. -/
def generate_query (o : Oracle) (current_date : String) (st : OverallState)
    (cfg : Configuration) : QueryGenerationDelta :=
  let n := effectiveInitialQueryCount st cfg
  let prompt : QueryPrompt :=
    { current_date := current_date
      research_topic := get_research_topic st.messages
      number_queries := n }
  { query_list := o.genQueries cfg.query_generator_model prompt }

/-- Conditional-edge function `continue_to_web_research`: one
`Send("web_research", {"search_query": q})` per entry of `query_list`. -/
def continue_to_web_research (st : OverallState) : List Send :=
  st.query_list.map (fun q => { node := "web_research", search_query := q })

/-- One formatted block of `web_research`'s summary, for the result at
0-based position `i` of the branch's own result list (the f-string
`"Source [{i+1}]: {title}\nURL: {url}\nContent: {content}\n\n"`). -/
def sourceBlock (i : Nat) (r : Source) : String :=
  "Source [" ++ toString (i + 1) ++ "]: " ++ r.title ++ "\nURL: " ++ r.url
    ++ "\nContent: " ++ r.content ++ "\n\n"

/-- The list of formatted blocks produced by the `enumerate` loop of
`web_research`, one per search result, numbered from 1 within the branch. -/
def formattedBlocks (rs : List Source) : List String :=
  rs.enum.map (fun p => sourceBlock p.1 p.2)

/-- The `formatted_results` string of `web_research`: the concatenation of
the per-result blocks. -/
def formatResults (rs : List Source) : String :=
  String.join (formattedBlocks rs)

/-- The state delta returned by `web_research`. -/
structure WebResearchDelta where
  web_research_result : List String
  sources_gathered : List Source
  search_query : List String
deriving Repr, DecidableEq

/-- Node `web_research`: run the Tavily search for the branch's query and
return one formatted summary, the raw result list, and the query itself. -/
def web_research (o : Oracle) (search_query : String) : WebResearchDelta :=
  let search_results := o.search search_query
  { web_research_result := [formatResults search_results]
    sources_gathered := search_results
    search_query := [search_query] }

/-- The state delta returned by `reflection`. -/
structure ReflectionDelta where
  is_sufficient : Bool
  knowledge_gap : String
  follow_up_queries : List String
  research_loop_count : Int
deriving Repr, DecidableEq

/-- Node `reflection`: increment the loop counter, format the reflection
prompt over all accumulated summaries, call the structured model, and return
the sufficiency verdict together with the new counter. -/
def reflection (o : Oracle) (current_date : String) (st : OverallState)
    (cfg : Configuration) : ReflectionDelta :=
  let newCount := st.research_loop_count + 1
  let model_name := reflectionModelName st cfg
  let prompt : ReflectPrompt :=
    { current_date := current_date
      research_topic := get_research_topic st.messages
      summaries := String.intercalate "\n\n---\n\n" st.web_research_result }
  let r := o.reflectResult model_name prompt
  { is_sufficient := r.is_sufficient
    knowledge_gap := r.knowledge_gap
    follow_up_queries := r.follow_up_queries
    research_loop_count := newCount }

/-- Conditional-edge function `evaluate_research`: finalize when sufficient
or when the loop counter has reached the effective ceiling, else dispatch
one `web_research` `Send` per follow-up query. -/
def evaluate_research (st : OverallState) (cfg : Configuration) : RouteResult :=
  let max_research_loops := effectiveMaxLoops st cfg
  if st.is_sufficient || st.research_loop_count ≥ max_research_loops then
    .node "finalize_answer"
  else
    .sends (st.follow_up_queries.map
      (fun q => { node := "web_research", search_query := q }))

/-- The numbered citation lines of `finalize_answer`'s `source_list`
comprehension: the source at 0-based position `i` of `sources_gathered` is
rendered as `"[{i+1}]: [{title}]({url})"`. -/
def sourceLines (sources : List Source) : List String :=
  sources.enum.map
    (fun p => "[" ++ toString (p.1 + 1) ++ "]: [" ++ p.2.title ++ "](" ++ p.2.url ++ ")")

/-- The state delta returned by `finalize_answer`. -/
structure FinalizeDelta where
  messages : List Message
  sources_gathered : List Source
deriving Repr, DecidableEq

/-- Node `finalize_answer`: build the numbered citation list from
`sources_gathered`, format the answer prompt over all accumulated summaries
plus that list, call the text model, and return the `AIMessage` together
with `sources_gathered`. -/
def finalize_answer (o : Oracle) (current_date : String) (st : OverallState)
    (cfg : Configuration) : FinalizeDelta :=
  let model_name := answerModelName st cfg
  let source_list := String.intercalate "\n" (sourceLines st.sources_gathered)
  let prompt : AnswerPrompt :=
    { current_date := current_date
      research_topic := get_research_topic st.messages
      summaries := String.intercalate "\n---\n\n" st.web_research_result
      source_list := source_list }
  { messages := [{ role := "ai", content := o.answerText model_name prompt }]
    sources_gathered := st.sources_gathered }

/-- Modelled from the spec: channel merge for `generate_query`'s delta
(`agent/state.py` is absent from `src/`).  Spec section 3: `queryList` is
replaced (overwrite), not merged. -/
def applyQueryDelta (st : OverallState) (d : QueryGenerationDelta) : OverallState :=
  { st with query_list := d.query_list }

/-- Modelled from the spec: channel merge for `web_research`'s delta
(`agent/state.py` is absent from `src/`).  Spec section 3: `webResults` and
`sourcesGathered` append across concurrent branches; the dispatched query is
likewise accumulated. -/
def applyWebResearchDelta (st : OverallState) (d : WebResearchDelta) : OverallState :=
  { st with
    web_research_result := st.web_research_result ++ d.web_research_result
    sources_gathered := st.sources_gathered ++ d.sources_gathered
    search_query := st.search_query ++ d.search_query }

/-- Modelled from the spec: channel merge for `reflection`'s delta
(`agent/state.py` is absent from `src/`).  Spec section 3: `loopCount`,
`isSufficient`, `knowledgeGap` and `followUpQueries` are overwritten. -/
def applyReflectionDelta (st : OverallState) (d : ReflectionDelta) : OverallState :=
  { st with
    is_sufficient := d.is_sufficient
    knowledge_gap := d.knowledge_gap
    follow_up_queries := d.follow_up_queries
    research_loop_count := d.research_loop_count }

/-- Modelled from the spec: channel merge for `finalize_answer`'s delta
(`agent/state.py` is absent from `src/`).  Spec section 3: `conversation`
appends; `sourcesGathered` appends (so returning the whole list appends a
copy of it). -/
def applyFinalizeDelta (st : OverallState) (d : FinalizeDelta) : OverallState :=
  { st with
    messages := st.messages ++ d.messages
    sources_gathered := st.sources_gathered ++ d.sources_gathered }

/-- The deltas of one fan-out wave, in dispatch order: one `web_research`
invocation per query of the wave. -/
def waveDeltas (o : Oracle) (queries : List String) : List WebResearchDelta :=
  queries.map (web_research o)

/-- Merging the branch deltas of one wave into the shared state, in the
given completion order (the serialized append executed by the scheduler). -/
def applyWave (st : OverallState) (ds : List WebResearchDelta) : OverallState :=
  ds.foldl applyWebResearchDelta st

/-- The scheduler's position in the graph of `graph.py`: `researching` holds
the queries of the currently dispatched wave; `halted` is the state in which
a conditional edge returned an empty `Send` list, so no task was scheduled
and the run stops. -/
inductive Phase where
  | generatingQuery
  | researching (queries : List String)
  | reflecting
  | routing
  | finalizing
  | done
  | halted
deriving Repr, DecidableEq

/-- One machine configuration of the scheduler: the phase, the shared run
state, and the list of node names executed so far (in execution order). -/
structure MachineConfig where
  phase : Phase
  state : OverallState
  executed : List String
deriving Repr, DecidableEq

/-- One superstep of the LangGraph scheduler over the wiring of `graph.py`:
START → `generate_query`; `generate_query` → `continue_to_web_research`
dispatch (an empty `Send` list schedules no task, halting the run);
`web_research` (all branches of the wave, then the join barrier) →
`reflection`; `reflection` → `evaluate_research`, which either loops back a
new wave, finalizes, or — on an empty dispatch — halts; `finalize_answer` →
END. -/
def step (o : Oracle) (current_date : String) (cfg : Configuration)
    (c : MachineConfig) : MachineConfig :=
  match c.phase with
  | .generatingQuery =>
      let st := applyQueryDelta c.state (generate_query o current_date c.state cfg)
      let ex := c.executed ++ ["generate_query"]
      match continue_to_web_research st with
      | [] => { phase := .halted, state := st, executed := ex }
      | sends => { phase := .researching (sends.map (fun s => s.search_query))
                   state := st, executed := ex }
  | .researching qs =>
      { phase := .reflecting
        state := applyWave c.state (waveDeltas o qs)
        executed := c.executed ++ qs.map (fun _ => "web_research") }
  | .reflecting =>
      { phase := .routing
        state := applyReflectionDelta c.state (reflection o current_date c.state cfg)
        executed := c.executed ++ ["reflection"] }
  | .routing =>
      match evaluate_research c.state cfg with
      | .node name =>
          if name = "finalize_answer" then { c with phase := .finalizing }
          else { c with phase := .halted }
      | .sends [] => { c with phase := .halted }
      | .sends l =>
          { c with phase := .researching (l.map (fun s => s.search_query)) }
  | .finalizing =>
      { phase := .done
        state := applyFinalizeDelta c.state (finalize_answer o current_date c.state cfg)
        executed := c.executed ++ ["finalize_answer"] }
  | .done => c
  | .halted => c

/-- Iterating the scheduler for `n` supersteps. -/
def iter (o : Oracle) (current_date : String) (cfg : Configuration) :
    Nat → MachineConfig → MachineConfig
  | 0, c => c
  | n + 1, c => iter o current_date cfg n (step o current_date cfg c)

/-- The initial run state: the user question, empty accumulators, loop
counter 0, and the optional per-run overrides. -/
def initOverall (question : String) (qCount maxLoops : Option Int)
    (rModel aModel : Option String) : OverallState :=
  { messages := [{ role := "human", content := question }]
    query_list := []
    search_query := []
    web_research_result := []
    sources_gathered := []
    initial_search_query_count := qCount
    max_research_loops := maxLoops
    research_loop_count := 0
    reflection_model := rModel
    answer_model := aModel
    is_sufficient := false
    knowledge_gap := ""
    follow_up_queries := [] }

/-- The initial machine configuration: the scheduler is about to run the
entry node `generate_query`; nothing has executed yet. -/
def initMachine (question : String) (qCount maxLoops : Option Int)
    (rModel aModel : Option String) : MachineConfig :=
  { phase := .generatingQuery
    state := initOverall question qCount maxLoops rModel aModel
    executed := [] }

/-- A terminal phase: the scheduler has no task left. -/
def isTerminal (c : MachineConfig) : Bool :=
  match c.phase with
  | .done => true
  | .halted => true
  | _ => false

/-- The process environment read at module import time. -/
structure Env where
  openrouter_api_key : Option String
  tavily_api_key : Option String
deriving Repr, DecidableEq

/-- The module-level credential checks at the top of `graph.py`: a missing
`OPENROUTER_API_KEY` or `TAVILY_API_KEY` raises a `ValueError` at import,
before the graph is even built. -/
def moduleInit (env : Env) : Except String Unit :=
  if env.openrouter_api_key = none then
    Except.error "OPENROUTER_API_KEY is not set"
  else if env.tavily_api_key = none then
    Except.error "TAVILY_API_KEY is not set"
  else Except.ok ()

/-- A whole run: the import-time credential check, then `n` scheduler
supersteps from the initial configuration.  An error from `moduleInit`
aborts before any node executes, so no machine configuration is produced. -/
def runAgent (env : Env) (o : Oracle) (current_date : String)
    (cfg : Configuration) (c₀ : MachineConfig) (n : Nat) :
    Except String MachineConfig :=
  match moduleInit env with
  | Except.error e => Except.error e
  | Except.ok _ => Except.ok (iter o current_date cfg n c₀)

/-- The effective loop ceiling of a run started with override `ml`: the
override when present, else the configured default. -/
def effMaxOf (ml : Option Int) (cfg : Configuration) : Int :=
  match ml with
  | none => cfg.max_research_loops
  | some m => m

/-- Run invariant for the loop ceiling: the override channel is constant,
the counter is non-negative, equals 0 before the first reflection, is below
the ceiling while a wave or its reflection is in flight, and never exceeds
the ceiling afterwards. -/
def LoopInv (cfg : Configuration) (ml : Option Int) (c : MachineConfig) : Prop :=
  c.state.max_research_loops = ml ∧
  0 ≤ c.state.research_loop_count ∧
  (c.phase = Phase.generatingQuery → c.state.research_loop_count = 0) ∧
  ((∃ qs, c.phase = Phase.researching qs) ∨ c.phase = Phase.reflecting →
    c.state.research_loop_count < effMaxOf ml cfg ∨ c.state.research_loop_count = 0) ∧
  (c.phase = Phase.routing ∨ c.phase = Phase.finalizing ∨
      c.phase = Phase.done ∨ c.phase = Phase.halted →
    c.state.research_loop_count ≤ effMaxOf ml cfg)

/-- Termination measure for the scheduler: an upper bound on the number of
supersteps left before a terminal phase. -/
def stepsLeft (M : Int) (c : MachineConfig) : Nat :=
  match c.phase with
  | .done => 0
  | .halted => 0
  | .finalizing => 1
  | .routing => 2 + 3 * (M - c.state.research_loop_count).toNat
  | .reflecting => 3 + 3 * (M - c.state.research_loop_count - 1).toNat
  | .researching _ => 4 + 3 * (M - c.state.research_loop_count - 1).toNat
  | .generatingQuery => 5 + 3 * (M - c.state.research_loop_count - 1).toNat

/-- Run invariant for progress: the run has not halted on an empty dispatch,
a routing phase always has follow-up queries available, and once the phase
is `done` the final node has executed. -/
def ProgressInv (c : MachineConfig) : Prop :=
  c.phase ≠ Phase.halted ∧
  (c.phase = Phase.routing → c.state.follow_up_queries ≠ []) ∧
  (c.phase = Phase.done → "finalize_answer" ∈ c.executed)

/-- A concrete search hit used by the concrete runs below. -/
def src1 : Source := { title := "T1", url := "u1", content := "c1" }

/-- A second concrete search hit. -/
def src2 : Source := { title := "T2", url := "u2", content := "c2" }

/-- Oracle that always reports insufficient research with one follow-up
query, generates one initial query, and finds one source per search. -/
def oInsufficient : Oracle :=
  { genQueries := fun _ _ => ["q0"]
    search := fun _ => [src1]
    reflectResult := fun _ _ =>
      { is_sufficient := false, knowledge_gap := "gap", follow_up_queries := ["f0"] }
    answerText := fun _ _ => "answer" }

/-- Oracle whose query generation returns the empty list. -/
def oNoQueries : Oracle := { oInsufficient with genQueries := fun _ _ => [] }

/-- Oracle whose searches return two results per query. -/
def oTwoResults : Oracle := { oInsufficient with search := fun _ => [src1, src2] }

/-- A baseline configuration (three initial queries, loop ceiling 2). -/
def cfgBase : Configuration :=
  { query_generator_model := "m-q"
    reflection_model := "m-r"
    answer_model := "m-a"
    number_of_initial_queries := 3
    max_research_loops := 2 }

/-- The baseline configuration with loop ceiling 0. -/
def cfgZeroLoops : Configuration := { cfgBase with max_research_loops := 0 }

/-- A reflection-output state with one follow-up query and the counter at 0. -/
def stC1 : OverallState :=
  { initOverall "Q" none none none none with follow_up_queries := ["f0"] }

/-- A state whose reflection-model override is the empty string. -/
def stEmptyModel : OverallState :=
  { initOverall "Q" none none none none with
    reflection_model := some ""
    answer_model := some "" }

/-- A state whose initial-query-count override is the explicit value 0. -/
def stZeroCount : OverallState :=
  { initOverall "Q" none none none none with initial_search_query_count := some 0 }

/-- An environment with the OpenRouter key missing. -/
def envNoKey : Env := { openrouter_api_key := none, tavily_api_key := some "t" }

/-! Helper lemmas about the scheduler. -/

theorem iter_succ_last (o : Oracle) (d : String) (cfg : Configuration) (n : Nat)
    (c : MachineConfig) :
    iter o d cfg (n + 1) c = step o d cfg (iter o d cfg n c) := by
  induction n generalizing c with
  | zero => rfl
  | succ n ih => exact ih (step o d cfg c)

theorem step_terminal (o : Oracle) (d : String) (cfg : Configuration)
    (c : MachineConfig) (h : isTerminal c = true) : step o d cfg c = c := by
  cases hph : c.phase <;> simp [isTerminal, hph] at h <;> simp [step, hph]

theorem iter_terminal (o : Oracle) (d : String) (cfg : Configuration)
    (c : MachineConfig) (h : isTerminal c = true) (n : Nat) :
    iter o d cfg n c = c := by
  induction n with
  | zero => rfl
  | succ n ih =>
      rw [iter_succ_last, ih, step_terminal o d cfg c h]

theorem applyWave_research_loop_count (st : OverallState) (ds : List WebResearchDelta) :
    (applyWave st ds).research_loop_count = st.research_loop_count := by
  induction ds generalizing st with
  | nil => rfl
  | cons dd ds ih => exact ih (applyWebResearchDelta st dd)

theorem applyWave_max_research_loops (st : OverallState) (ds : List WebResearchDelta) :
    (applyWave st ds).max_research_loops = st.max_research_loops := by
  induction ds generalizing st with
  | nil => rfl
  | cons dd ds ih => exact ih (applyWebResearchDelta st dd)

theorem applyWave_web_research_result (st : OverallState) (ds : List WebResearchDelta) :
    (applyWave st ds).web_research_result =
      st.web_research_result ++ (ds.map (fun dd => dd.web_research_result)).flatten := by
  induction ds generalizing st with
  | nil => simp [applyWave]
  | cons dd ds ih =>
      simp only [applyWave, List.foldl_cons, List.map_cons, List.flatten_cons]
      rw [show List.foldl applyWebResearchDelta (applyWebResearchDelta st dd) ds =
            applyWave (applyWebResearchDelta st dd) ds from rfl, ih]
      simp [applyWebResearchDelta, List.append_assoc]

theorem applyWave_sources_gathered (st : OverallState) (ds : List WebResearchDelta) :
    (applyWave st ds).sources_gathered =
      st.sources_gathered ++ (ds.map (fun dd => dd.sources_gathered)).flatten := by
  induction ds generalizing st with
  | nil => simp [applyWave]
  | cons dd ds ih =>
      simp only [applyWave, List.foldl_cons, List.map_cons, List.flatten_cons]
      rw [show List.foldl applyWebResearchDelta (applyWebResearchDelta st dd) ds =
            applyWave (applyWebResearchDelta st dd) ds from rfl, ih]
      simp [applyWebResearchDelta, List.append_assoc]

/-! The claims. -/

/-- C1: `evaluate_research` returns `finalize_answer` exactly when
`is_sufficient` is true or the loop counter has reached the effective
ceiling (the state override when present, else the configured default, an
inclusive ceiling); otherwise it returns one `web_research` dispatch per
entry of `follow_up_queries`, in list order, each carrying that query. -/
theorem evaluate_research_routes (st : OverallState) (cfg : Configuration) :
    (evaluate_research st cfg = RouteResult.node "finalize_answer" ↔
      (st.is_sufficient = true ∨ effectiveMaxLoops st cfg ≤ st.research_loop_count)) ∧
    (st.is_sufficient = false → st.research_loop_count < effectiveMaxLoops st cfg →
      evaluate_research st cfg =
        RouteResult.sends (st.follow_up_queries.map
          (fun q => { node := "web_research", search_query := q }))) := by
  unfold evaluate_research
  dsimp only
  constructor
  · split
    · next h =>
        simp only [Bool.or_eq_true, decide_eq_true_eq, ge_iff_le] at h
        exact iff_of_true rfl h
    · next h =>
        simp only [Bool.or_eq_true, decide_eq_true_eq, ge_iff_le, not_or] at h
        refine iff_of_false (by simp) ?_
        rcases h with ⟨h1, h2⟩
        rintro (h3 | h3)
        · exact absurd h3 h1
        · exact absurd h3 h2
  · intro h1 h2
    split
    · next h =>
        simp only [Bool.or_eq_true, decide_eq_true_eq, ge_iff_le] at h
        rcases h with h | h
        · rw [h1] at h; exact absurd h (by simp)
        · omega
    · rfl

/-- C1 witness: a concrete insufficient state below the ceiling is routed to
one `web_research` dispatch carrying its follow-up query. -/
theorem evaluate_research_routes_witness :
    evaluate_research stC1 cfgBase =
      RouteResult.sends [{ node := "web_research", search_query := "f0" }] :=
  (evaluate_research_routes stC1 cfgBase).2 (by decide) (by decide)

/-- C7: `generate_query` requests the state-override count when present,
else the configured default, passes it to the structured-generation call,
and its delta overwrites `query_list` wholesale with the returned list. -/
theorem generate_query_overwrites (o : Oracle) (d : String) (st : OverallState)
    (cfg : Configuration) :
    ((generate_query o d st cfg).query_list =
      o.genQueries cfg.query_generator_model
        { current_date := d
          research_topic := get_research_topic st.messages
          number_queries := effectiveInitialQueryCount st cfg }) ∧
    (∀ del : QueryGenerationDelta,
      (applyQueryDelta st del).query_list = del.query_list) ∧
    (st.initial_search_query_count = none →
      effectiveInitialQueryCount st cfg = cfg.number_of_initial_queries) ∧
    (∀ k : Int, st.initial_search_query_count = some k →
      effectiveInitialQueryCount st cfg = k) := by
  refine ⟨rfl, fun del => rfl, ?_, ?_⟩
  · intro h; simp [effectiveInitialQueryCount, h]
  · intro k h; simp [effectiveInitialQueryCount, h]

/-- C7 witness: with the override absent the default count 3 is used, and a
concrete delta replaces a previously non-empty `query_list`. -/
theorem generate_query_overwrites_witness :
    effectiveInitialQueryCount (initOverall "Q" none none none none) cfgBase = 3 ∧
    (applyQueryDelta stC1 { query_list := ["n1"] }).query_list = ["n1"] := by
  refine ⟨?_, ?_⟩
  · exact (generate_query_overwrites oInsufficient "d"
      (initOverall "Q" none none none none) cfgBase).2.2.1 rfl
  · exact (generate_query_overwrites oInsufficient "d" stC1 cfgBase).2.1 { query_list := ["n1"] }

/-- C8: a missing `OPENROUTER_API_KEY` or `TAVILY_API_KEY` makes the run
fail with a configuration error raised by the module-level checks before any
graph node executes: `runAgent` returns an error and never a machine
configuration, so no node runs and no partial state is produced. -/
theorem missing_credentials_abort (env : Env) (o : Oracle) (d : String)
    (cfg : Configuration) (c₀ : MachineConfig) (n : Nat)
    (h : env.openrouter_api_key = none ∨ env.tavily_api_key = none) :
    (∃ msg, runAgent env o d cfg c₀ n = Except.error msg) ∧
    (∀ c, runAgent env o d cfg c₀ n ≠ Except.ok c) := by
  have herr : ∃ msg, moduleInit env = Except.error msg := by
    rcases h with h | h
    · exact ⟨"OPENROUTER_API_KEY is not set", by simp [moduleInit, h]⟩
    · by_cases h2 : env.openrouter_api_key = none
      · exact ⟨"OPENROUTER_API_KEY is not set", by simp [moduleInit, h2]⟩
      · exact ⟨"TAVILY_API_KEY is not set", by simp [moduleInit, h2, h]⟩
  rcases herr with ⟨msg, hmsg⟩
  constructor
  · exact ⟨msg, by simp [runAgent, hmsg]⟩
  · intro c hc
    simp [runAgent, hmsg] at hc

/-- C8 witness: with the OpenRouter key absent the concrete run aborts with
an error and yields no machine configuration. -/
theorem missing_credentials_abort_witness :
    (∃ msg, runAgent envNoKey oInsufficient "d" cfgBase
      (initMachine "Q" none none none none) 5 = Except.error msg) ∧
    (∀ c, runAgent envNoKey oInsufficient "d" cfgBase
      (initMachine "Q" none none none none) 5 ≠ Except.ok c) :=
  missing_credentials_abort envNoKey oInsufficient "d" cfgBase
    (initMachine "Q" none none none none) 5 (Or.inl rfl)

/-- C10: the model fallbacks of `reflection` and `finalize_answer` replace
any falsy override (`None` or the empty string) by the configured default,
while `generate_query`'s count fallback replaces only an override that is
exactly `None` — an explicit 0 is kept. -/
theorem fallback_asymmetry (cfg : Configuration) :
    (∀ st : OverallState, st.reflection_model = some "" →
      reflectionModelName st cfg = cfg.reflection_model) ∧
    (∀ st : OverallState, st.answer_model = some "" →
      answerModelName st cfg = cfg.answer_model) ∧
    (∀ st : OverallState, st.reflection_model = none →
      reflectionModelName st cfg = cfg.reflection_model) ∧
    (∀ st : OverallState, st.answer_model = none →
      answerModelName st cfg = cfg.answer_model) ∧
    (∀ (st : OverallState) (s : String), st.reflection_model = some s → s ≠ "" →
      reflectionModelName st cfg = s) ∧
    (∀ (st : OverallState) (k : Int), st.initial_search_query_count = some k →
      effectiveInitialQueryCount st cfg = k) ∧
    (∀ st : OverallState, st.initial_search_query_count = none →
      effectiveInitialQueryCount st cfg = cfg.number_of_initial_queries) := by
  refine ⟨?_, ?_, ?_, ?_, ?_, ?_, ?_⟩ <;> intros <;>
    simp_all [reflectionModelName, answerModelName, pyOrStr, effectiveInitialQueryCount]

/-- C10 witness: an empty-string model override falls back to the default,
while an explicit count override of 0 is kept even though 0 is falsy. -/
theorem fallback_asymmetry_witness :
    reflectionModelName stEmptyModel cfgBase = "m-r" ∧
    answerModelName stEmptyModel cfgBase = "m-a" ∧
    effectiveInitialQueryCount stZeroCount cfgBase = 0 :=
  ⟨(fallback_asymmetry cfgBase).1 stEmptyModel rfl,
   (fallback_asymmetry cfgBase).2.1 stEmptyModel rfl,
   (fallback_asymmetry cfgBase).2.2.2.2.2.1 stZeroCount 0 rfl⟩

theorem count_le_step (o : Oracle) (d : String) (cfg : Configuration)
    (c : MachineConfig) :
    c.state.research_loop_count ≤ (step o d cfg c).state.research_loop_count := by
  cases hph : c.phase
  case generatingQuery =>
    simp only [step, hph]
    split <;> simp [applyQueryDelta]
  case researching qs =>
    simp only [step, hph]
    rw [applyWave_research_loop_count]
  case reflecting =>
    simp only [step, hph]
    simp [applyReflectionDelta, reflection]
  case routing =>
    simp only [step, hph]
    split
    · split <;> simp
    · simp
    · simp
  case finalizing =>
    simp only [step, hph]
    simp [applyFinalizeDelta]
  case done => simp [step, hph]
  case halted => simp [step, hph]

/-- C6: the deltas of `generate_query`, `web_research` and `finalize_answer`
leave `research_loop_count` unchanged, `reflection`'s delta increments it by
exactly 1, and along any scheduled run the counter is monotonically
non-decreasing. -/
theorem loop_count_only_reflection (o : Oracle) (d : String) (st : OverallState)
    (cfg : Configuration) (c : MachineConfig) :
    ((applyQueryDelta st (generate_query o d st cfg)).research_loop_count =
      st.research_loop_count) ∧
    (∀ q : String, (applyWebResearchDelta st (web_research o q)).research_loop_count =
      st.research_loop_count) ∧
    ((applyReflectionDelta st (reflection o d st cfg)).research_loop_count =
      st.research_loop_count + 1) ∧
    ((applyFinalizeDelta st (finalize_answer o d st cfg)).research_loop_count =
      st.research_loop_count) ∧
    (∀ n : Nat, (iter o d cfg n c).state.research_loop_count ≤
      (iter o d cfg (n + 1) c).state.research_loop_count) := by
  refine ⟨rfl, fun q => rfl, rfl, rfl, fun n => ?_⟩
  rw [iter_succ_last]
  exact count_le_step o d cfg (iter o d cfg n c)

theorem sourceLines_getElem? (l : List Source) (i : Nat) :
    (sourceLines l)[i]? = Option.map
      (fun s => "[" ++ toString (i + 1) ++ "]: [" ++ s.title ++ "](" ++ s.url ++ ")")
      l[i]? := by
  simp only [sourceLines, List.getElem?_map, List.getElem?_enum, Option.map_map]
  cases l[i]? <;> rfl

/-- C5: `finalize_answer` numbers each citation line by the source's 1-based
position in `sources_gathered` (index = append order), passes all
accumulated `webResults` plus that citation list to the text-generation
call, appends the resulting answer as a new entry of the conversation, and
the scheduler then moves to the terminal `done` fixpoint — no further
routing. -/
theorem finalize_answer_citations (o : Oracle) (d : String) (st : OverallState)
    (cfg : Configuration) :
    (∀ i : Nat, (sourceLines st.sources_gathered)[i]? = Option.map
      (fun s => "[" ++ toString (i + 1) ++ "]: [" ++ s.title ++ "](" ++ s.url ++ ")")
      st.sources_gathered[i]?) ∧
    (finalize_answer o d st cfg =
      { messages := [{ role := "ai",
                       content := o.answerText (answerModelName st cfg)
                         { current_date := d,
                           research_topic := get_research_topic st.messages,
                           summaries := String.intercalate "\n---\n\n" st.web_research_result,
                           source_list := String.intercalate "\n"
                             (sourceLines st.sources_gathered) } }],
        sources_gathered := st.sources_gathered }) ∧
    ((applyFinalizeDelta st (finalize_answer o d st cfg)).messages =
      st.messages ++ (finalize_answer o d st cfg).messages) ∧
    (∀ c : MachineConfig, c.phase = Phase.finalizing →
      (step o d cfg c).phase = Phase.done ∧
      step o d cfg (step o d cfg c) = step o d cfg c) := by
  refine ⟨fun i => sourceLines_getElem? st.sources_gathered i, rfl, rfl, ?_⟩
  intro c hph
  have h1 : (step o d cfg c).phase = Phase.done := by simp [step, hph]
  exact ⟨h1, step_terminal o d cfg _ (by simp [isTerminal, h1])⟩

/-- C5 witness: from a concrete finalizing configuration the scheduler moves
to `done` and stays there. -/
theorem finalize_answer_citations_witness :
    (step oInsufficient "d" cfgBase
      { initMachine "Q" none none none none with phase := Phase.finalizing }).phase =
        Phase.done ∧
    step oInsufficient "d" cfgBase (step oInsufficient "d" cfgBase
      { initMachine "Q" none none none none with phase := Phase.finalizing }) =
      step oInsufficient "d" cfgBase
        { initMachine "Q" none none none none with phase := Phase.finalizing } :=
  (finalize_answer_citations oInsufficient "d"
    (initMachine "Q" none none none none).state cfgBase).2.2.2
    { initMachine "Q" none none none none with phase := Phase.finalizing } rfl

theorem formattedBlocks_getElem? (rs : List Source) (j : Nat) :
    (formattedBlocks rs)[j]? = Option.map (fun r => sourceBlock j r) rs[j]? := by
  simp only [formattedBlocks, List.getElem?_map, List.getElem?_enum, Option.map_map]
  cases rs[j]? <;> rfl

/-- C9: every `web_research` branch numbers its own summary locally from
`Source [1]` (the block at branch-local position j carries the label j+1,
restarting at 1 in each branch), so the numbers embedded in the summaries
passed to `finalize_answer` are not globally unique across branches and
differ from the global 1-based positions that `finalize_answer`'s citation
list assigns in `sources_gathered`. -/
theorem web_research_local_numbering (o : Oracle) (q₁ q₂ : String)
    (st : OverallState) (s₁ s₂ : Source) (t₁ t₂ : List Source)
    (h₁ : o.search q₁ = s₁ :: t₁) (h₂ : o.search q₂ = s₂ :: t₂) :
    ((web_research o q₁).web_research_result = [formatResults (s₁ :: t₁)]) ∧
    ((web_research o q₂).web_research_result = [formatResults (s₂ :: t₂)]) ∧
    ((formattedBlocks (s₁ :: t₁)).head? = some (sourceBlock 0 s₁)) ∧
    ((formattedBlocks (s₂ :: t₂)).head? = some (sourceBlock 0 s₂)) ∧
    (∀ j : Nat, (formattedBlocks (s₂ :: t₂))[j]? =
      Option.map (fun r => sourceBlock j r) (s₂ :: t₂)[j]?) ∧
    ((applyWebResearchDelta (applyWebResearchDelta st (web_research o q₁))
        (web_research o q₂)).sources_gathered =
      st.sources_gathered ++ (s₁ :: t₁) ++ (s₂ :: t₂)) ∧
    ((sourceLines (st.sources_gathered ++ (s₁ :: t₁) ++
        (s₂ :: t₂)))[st.sources_gathered.length + t₁.length + 1]? =
      some ("[" ++ toString (st.sources_gathered.length + t₁.length + 2) ++ "]: ["
        ++ s₂.title ++ "](" ++ s₂.url ++ ")")) ∧
    (st.sources_gathered.length + t₁.length + 2 ≠ 1) := by
  refine ⟨by simp [web_research, h₁], by simp [web_research, h₂], ?_, ?_, ?_, ?_, ?_, by omega⟩
  · rw [List.head?_eq_getElem?, formattedBlocks_getElem?]
    simp
  · rw [List.head?_eq_getElem?, formattedBlocks_getElem?]
    simp
  · exact fun j => formattedBlocks_getElem? (s₂ :: t₂) j
  · simp [applyWebResearchDelta, web_research, h₁, h₂]
  · rw [sourceLines_getElem?]
    have hle : (st.sources_gathered ++ (s₁ :: t₁)).length ≤
        st.sources_gathered.length + t₁.length + 1 := by
      simp only [List.length_append, List.length_cons]
      omega
    rw [List.getElem?_append_right hle]
    have hidx : st.sources_gathered.length + t₁.length + 1 -
        (st.sources_gathered ++ (s₁ :: t₁)).length = 0 := by
      simp only [List.length_append, List.length_cons]
      omega
    rw [hidx]
    have harith : st.sources_gathered.length + t₁.length + 1 + 1 =
        st.sources_gathered.length + t₁.length + 2 := by omega
    simp [harith]

/-- C9 witness: with two concrete branches over the same two-result search,
both summaries start with the block labelled `Source [1]`, while the second
branch's first source sits at global citation position 4 ≠ 1. -/
theorem web_research_local_numbering_witness :
    (formattedBlocks (src1 :: [src2])).head? = some (sourceBlock 0 src1) ∧
    (initOverall "Q" none none none none).sources_gathered.length + [src2].length + 2 ≠ 1 :=
  ⟨(web_research_local_numbering oTwoResults "a" "b"
      (initOverall "Q" none none none none) src1 src1 [src2] [src2] rfl rfl).2.2.2.1,
   (web_research_local_numbering oTwoResults "a" "b"
      (initOverall "Q" none none none none) src1 src1 [src2] [src2] rfl rfl).2.2.2.2.2.2.2⟩

/-- C4 counterexample: when `generate_query` produces an empty query list,
the run reaches the `halted` fixpoint right after `generate_query`:
`reflection` never executes, contradicting the claimed direct routing to
`reflection`. -/
theorem empty_query_cex :
    (iter oNoQueries "d" cfgBase 5 (initMachine "Q" none none none none)).phase =
      Phase.halted ∧
    "reflection" ∉ (iter oNoQueries "d" cfgBase 5
      (initMachine "Q" none none none none)).executed ∧
    step oNoQueries "d" cfgBase (iter oNoQueries "d" cfgBase 5
      (initMachine "Q" none none none none)) =
      iter oNoQueries "d" cfgBase 5 (initMachine "Q" none none none none) := by
  decide

/-- C4 amended: a `queryList` of length 0 spawns no `web_research` branch,
and the run halts immediately after `generate_query` — neither `reflection`
(reachable only through `web_research`) nor `finalize_answer` ever executes;
`reflection` itself would join an empty summary list safely (the join of no
summaries is the empty string). -/
theorem empty_query_halts (o : Oracle) (d : String) (cfg : Configuration)
    (question : String) (qc ml : Option Int) (rm am : Option String)
    (h : ∀ m p, o.genQueries m p = []) :
    (∀ n, "reflection" ∉ (iter o d cfg n (initMachine question qc ml rm am)).executed ∧
      "web_research" ∉ (iter o d cfg n (initMachine question qc ml rm am)).executed ∧
      "finalize_answer" ∉ (iter o d cfg n (initMachine question qc ml rm am)).executed) ∧
    (∀ n, 1 ≤ n →
      (iter o d cfg n (initMachine question qc ml rm am)).phase = Phase.halted) ∧
    (∀ st : OverallState, st.web_research_result = [] →
      String.intercalate "\n\n---\n\n" st.web_research_result = "") := by
  have hq : (applyQueryDelta (initMachine question qc ml rm am).state
      (generate_query o d (initMachine question qc ml rm am).state cfg)).query_list = [] := by
    simp [applyQueryDelta, generate_query, h]
  have hcw : continue_to_web_research (applyQueryDelta (initMachine question qc ml rm am).state
      (generate_query o d (initMachine question qc ml rm am).state cfg)) = [] := by
    simp [continue_to_web_research, hq]
  have hstep : step o d cfg (initMachine question qc ml rm am) =
      { phase := Phase.halted,
        state := applyQueryDelta (initMachine question qc ml rm am).state
          (generate_query o d (initMachine question qc ml rm am).state cfg),
        executed := ["generate_query"] } := by
    have hph : (initMachine question qc ml rm am).phase = Phase.generatingQuery := rfl
    simp only [step, hph]
    rw [hcw]
    rfl
  have hfix : ∀ n, 1 ≤ n → iter o d cfg n (initMachine question qc ml rm am) =
      { phase := Phase.halted,
        state := applyQueryDelta (initMachine question qc ml rm am).state
          (generate_query o d (initMachine question qc ml rm am).state cfg),
        executed := ["generate_query"] } := by
    intro n hn
    obtain ⟨m, rfl⟩ : ∃ m, n = m + 1 := ⟨n - 1, by omega⟩
    have hstep2 : iter o d cfg (m + 1) (initMachine question qc ml rm am) =
        iter o d cfg m (step o d cfg (initMachine question qc ml rm am)) := rfl
    rw [hstep2, hstep]
    exact iter_terminal o d cfg
      { phase := Phase.halted,
        state := applyQueryDelta (initMachine question qc ml rm am).state
          (generate_query o d (initMachine question qc ml rm am).state cfg),
        executed := ["generate_query"] } rfl m
  refine ⟨?_, fun n hn => by rw [hfix n hn], fun st hst => by rw [hst]; rfl⟩
  intro n
  match n with
  | 0 => exact ⟨by simp [iter, initMachine], by simp [iter, initMachine],
      by simp [iter, initMachine]⟩
  | m + 1 =>
      rw [hfix (m + 1) (by omega)]
      refine ⟨by simp, by simp, by simp⟩

/-- C4 witness: the concrete empty-query oracle never executes `reflection`
and is halted from step 1 on. -/
theorem empty_query_halts_witness :
    ("reflection" ∉ (iter oNoQueries "d" cfgBase 3
      (initMachine "Q" none none none none)).executed ∧
     "web_research" ∉ (iter oNoQueries "d" cfgBase 3
      (initMachine "Q" none none none none)).executed ∧
     "finalize_answer" ∉ (iter oNoQueries "d" cfgBase 3
      (initMachine "Q" none none none none)).executed) ∧
    (iter oNoQueries "d" cfgBase 1 (initMachine "Q" none none none none)).phase =
      Phase.halted :=
  ⟨(empty_query_halts oNoQueries "d" cfgBase "Q" none none none none
      (fun m p => rfl)).1 3,
   (empty_query_halts oNoQueries "d" cfgBase "Q" none none none none
      (fun m p => rfl)).2.1 1 (by omega)⟩

theorem step_appends (o : Oracle) (d : String) (cfg : Configuration)
    (c : MachineConfig) :
    ∃ t₁ t₂,
      (step o d cfg c).state.web_research_result = c.state.web_research_result ++ t₁ ∧
      (step o d cfg c).state.sources_gathered = c.state.sources_gathered ++ t₂ := by
  cases hph : c.phase
  case generatingQuery =>
    refine ⟨[], [], ?_, ?_⟩ <;> (simp only [step, hph]; split <;> simp [applyQueryDelta])
  case researching qs =>
    refine ⟨((waveDeltas o qs).map (fun dd => dd.web_research_result)).flatten,
      ((waveDeltas o qs).map (fun dd => dd.sources_gathered)).flatten, ?_, ?_⟩
    · simp only [step, hph]
      exact applyWave_web_research_result c.state (waveDeltas o qs)
    · simp only [step, hph]
      exact applyWave_sources_gathered c.state (waveDeltas o qs)
  case reflecting =>
    refine ⟨[], [], ?_, ?_⟩ <;> simp [step, hph, applyReflectionDelta]
  case routing =>
    refine ⟨[], [], ?_, ?_⟩ <;> (simp only [step, hph]; split <;> try split) <;> simp
  case finalizing =>
    refine ⟨[], c.state.sources_gathered, ?_, ?_⟩ <;>
      simp [step, hph, applyFinalizeDelta, finalize_answer]
  case done => exact ⟨[], [], by simp [step, hph], by simp [step, hph]⟩
  case halted => exact ⟨[], [], by simp [step, hph], by simp [step, hph]⟩

/-- C3 counterexample: a wave of k = 1 branch whose search returns two
results grows `sources_gathered` by 2 entries, not by k = 1: `web_research`
appends its whole raw result list, one entry per search result. -/
theorem wave_growth_cex :
    (applyWave (initOverall "Q" none none none none)
      (waveDeltas oTwoResults ["q0"])).sources_gathered.length = 2 ∧
    ¬((applyWave (initOverall "Q" none none none none)
      (waveDeltas oTwoResults ["q0"])).sources_gathered.length =
        (initOverall "Q" none none none none).sources_gathered.length + 1) := by
  decide

/-- C3 amended: a fan-out wave of k branches grows `webResults` by exactly k
entries, and `sourcesGathered` by the total number of search results across
the k branches (one entry per raw result, not one per branch); both merged
accumulators are order-independent up to permutation of branch completion
order, and along the whole run each scheduler step only appends to them —
no entry is ever removed or reordered. -/
theorem wave_growth (o : Oracle) (st : OverallState) (qs : List String)
    (ds' : List WebResearchDelta) (hperm : ds'.Perm (waveDeltas o qs)) :
    ((applyWave st ds').web_research_result.length =
      st.web_research_result.length + qs.length) ∧
    ((applyWave st ds').sources_gathered.length =
      st.sources_gathered.length + (qs.map (fun q => (o.search q).length)).sum) ∧
    ((applyWave st ds').web_research_result.Perm
      ((applyWave st (waveDeltas o qs)).web_research_result)) ∧
    ((applyWave st ds').sources_gathered.Perm
      ((applyWave st (waveDeltas o qs)).sources_gathered)) ∧
    (∀ (o₂ : Oracle) (d : String) (cfg : Configuration) (c : MachineConfig) (n : Nat),
      ∃ t₁ t₂,
        (iter o₂ d cfg (n + 1) c).state.web_research_result =
          (iter o₂ d cfg n c).state.web_research_result ++ t₁ ∧
        (iter o₂ d cfg (n + 1) c).state.sources_gathered =
          (iter o₂ d cfg n c).state.sources_gathered ++ t₂) := by
  have hwebPerm : (ds'.map (fun dd => dd.web_research_result)).flatten.Perm
      ((waveDeltas o qs).map (fun dd => dd.web_research_result)).flatten :=
    (hperm.map (fun dd => dd.web_research_result)).flatten
  have hsrcPerm : (ds'.map (fun dd => dd.sources_gathered)).flatten.Perm
      ((waveDeltas o qs).map (fun dd => dd.sources_gathered)).flatten :=
    (hperm.map (fun dd => dd.sources_gathered)).flatten
  have hweblen : ∀ l : List String,
      ((waveDeltas o l).map (fun dd => dd.web_research_result)).flatten.length = l.length := by
    intro l
    induction l with
    | nil => rfl
    | cons q l ih =>
        rw [show waveDeltas o (q :: l) = web_research o q :: waveDeltas o l from rfl,
          List.map_cons, List.flatten_cons, List.length_append, ih]
        simp only [web_research, List.length_cons, List.length_nil]
        omega
  have hsrclen : ∀ l : List String,
      ((waveDeltas o l).map (fun dd => dd.sources_gathered)).flatten.length =
        (l.map (fun q => (o.search q).length)).sum := by
    intro l
    induction l with
    | nil => rfl
    | cons q l ih =>
        rw [show waveDeltas o (q :: l) = web_research o q :: waveDeltas o l from rfl,
          List.map_cons, List.flatten_cons, List.length_append, ih, List.map_cons,
          List.sum_cons]
        simp only [web_research]
  refine ⟨?_, ?_, ?_, ?_, ?_⟩
  · rw [applyWave_web_research_result]
    simp only [List.length_append]
    rw [hwebPerm.length_eq, hweblen qs]
  · rw [applyWave_sources_gathered]
    simp only [List.length_append]
    rw [hsrcPerm.length_eq, hsrclen qs]
  · rw [applyWave_web_research_result, applyWave_web_research_result]
    exact hwebPerm.append_left st.web_research_result
  · rw [applyWave_sources_gathered, applyWave_sources_gathered]
    exact hsrcPerm.append_left st.sources_gathered
  · intro o₂ d cfg c n
    rw [iter_succ_last]
    exact step_appends o₂ d cfg (iter o₂ d cfg n c)

/-- C3 witness: reversing the completion order of a concrete two-branch wave
still grows `webResults` by 2 and `sourcesGathered` by the 4 raw results. -/
theorem wave_growth_witness :
    (applyWave (initOverall "Q" none none none none)
      ((waveDeltas oTwoResults ["a", "b"]).reverse)).web_research_result.length =
      (initOverall "Q" none none none none).web_research_result.length +
        (["a", "b"] : List String).length ∧
    (applyWave (initOverall "Q" none none none none)
      ((waveDeltas oTwoResults ["a", "b"]).reverse)).sources_gathered.length =
      (initOverall "Q" none none none none).sources_gathered.length +
        ((["a", "b"] : List String).map (fun q => (oTwoResults.search q).length)).sum :=
  ⟨(wave_growth oTwoResults (initOverall "Q" none none none none) ["a", "b"]
      ((waveDeltas oTwoResults ["a", "b"]).reverse) (by decide)).1,
   (wave_growth oTwoResults (initOverall "Q" none none none none) ["a", "b"]
      ((waveDeltas oTwoResults ["a", "b"]).reverse) (by decide)).2.1⟩

@[simp] theorem applyQueryDelta_research_loop_count (st : OverallState)
    (dd : QueryGenerationDelta) :
    (applyQueryDelta st dd).research_loop_count = st.research_loop_count := rfl

@[simp] theorem applyQueryDelta_max_research_loops (st : OverallState)
    (dd : QueryGenerationDelta) :
    (applyQueryDelta st dd).max_research_loops = st.max_research_loops := rfl

@[simp] theorem applyReflectionDelta_research_loop_count (st : OverallState)
    (dd : ReflectionDelta) :
    (applyReflectionDelta st dd).research_loop_count = dd.research_loop_count := rfl

@[simp] theorem applyReflectionDelta_max_research_loops (st : OverallState)
    (dd : ReflectionDelta) :
    (applyReflectionDelta st dd).max_research_loops = st.max_research_loops := rfl

@[simp] theorem applyFinalizeDelta_research_loop_count (st : OverallState)
    (dd : FinalizeDelta) :
    (applyFinalizeDelta st dd).research_loop_count = st.research_loop_count := rfl

@[simp] theorem applyFinalizeDelta_max_research_loops (st : OverallState)
    (dd : FinalizeDelta) :
    (applyFinalizeDelta st dd).max_research_loops = st.max_research_loops := rfl

@[simp] theorem reflection_research_loop_count (o : Oracle) (d : String)
    (st : OverallState) (cfg : Configuration) :
    (reflection o d st cfg).research_loop_count = st.research_loop_count + 1 := rfl

theorem evaluate_research_node_name (st : OverallState) (cfg : Configuration)
    (name : String) (h : evaluate_research st cfg = RouteResult.node name) :
    name = "finalize_answer" := by
  unfold evaluate_research at h
  dsimp only at h
  split at h
  · cases h
    rfl
  · cases h

theorem evaluate_research_sends (st : OverallState) (cfg : Configuration)
    (l : List Send) (h : evaluate_research st cfg = RouteResult.sends l) :
    st.is_sufficient = false ∧ st.research_loop_count < effectiveMaxLoops st cfg ∧
      l = st.follow_up_queries.map (fun q => { node := "web_research", search_query := q }) := by
  unfold evaluate_research at h
  dsimp only at h
  split at h
  · cases h
  · next hcond =>
      simp only [Bool.or_eq_true, decide_eq_true_eq, ge_iff_le, not_or,
        Bool.not_eq_true] at hcond
      obtain ⟨h1, h2⟩ := hcond
      cases h
      exact ⟨h1, by omega, rfl⟩

theorem effectiveMaxLoops_eq (st : OverallState) (cfg : Configuration)
    (ml : Option Int) (h : st.max_research_loops = ml) :
    effectiveMaxLoops st cfg = effMaxOf ml cfg := by
  unfold effectiveMaxLoops effMaxOf
  rw [h]

theorem LoopInv_init (cfg : Configuration) (question : String)
    (qc ml : Option Int) (rm am : Option String) :
    LoopInv cfg ml (initMachine question qc ml rm am) := by
  refine ⟨rfl, by simp [initMachine, initOverall], fun _ => rfl, ?_, ?_⟩
  · intro h
    exact Or.inr rfl
  · rintro (h | h | h | h) <;> cases h

theorem LoopInv_step (o : Oracle) (d : String) (cfg : Configuration) (ml : Option Int)
    (hM : 1 ≤ effMaxOf ml cfg) (c : MachineConfig) (hI : LoopInv cfg ml c) :
    LoopInv cfg ml (step o d cfg c) := by
  obtain ⟨hml, hnn, h1, h2, h3⟩ := hI
  cases hphase : c.phase
  case generatingQuery =>
    have hc0 := h1 hphase
    simp only [step, hphase]
    split
    · exact ⟨hml, by simp [hc0], by simp, by simp, fun _ => by simp [hc0]; omega⟩
    · exact ⟨hml, by simp [hc0], by simp, fun _ => Or.inr (by simp [hc0]),
        by simp⟩
  case researching qs =>
    have hlt := h2 (Or.inl ⟨qs, hphase⟩)
    simp only [step, hphase]
    refine ⟨?_, ?_, by simp, fun hh => ?_, by simp⟩
    · rw [applyWave_max_research_loops]
      exact hml
    · rw [applyWave_research_loop_count]
      exact hnn
    · rw [applyWave_research_loop_count]
      exact hlt
  case reflecting =>
    have hlt := h2 (Or.inr hphase)
    simp only [step, hphase]
    refine ⟨by simp [hml], by simp; omega, by simp, by simp, fun _ => ?_⟩
    simp only [applyReflectionDelta_research_loop_count, reflection_research_loop_count]
    omega
  case routing =>
    have hle := h3 (Or.inl hphase)
    simp only [step, hphase]
    split
    · split
      · exact ⟨hml, hnn, by simp, by simp, fun _ => hle⟩
      · exact ⟨hml, hnn, by simp, by simp, fun _ => hle⟩
    · exact ⟨hml, hnn, by simp, by simp, fun _ => hle⟩
    · next l s hev =>
        obtain ⟨hsuff, hlt, hl⟩ := evaluate_research_sends c.state cfg _ hev
        rw [effectiveMaxLoops_eq c.state cfg ml hml] at hlt
        exact ⟨hml, hnn, by simp, fun _ => Or.inl hlt, by simp⟩
  case finalizing =>
    have hle := h3 (Or.inr (Or.inl hphase))
    simp only [step, hphase]
    exact ⟨by simp [hml], by simp [hnn], by simp, by simp, fun _ => by simp [hle]⟩
  case done =>
    have hle := h3 (Or.inr (Or.inr (Or.inl hphase)))
    simp only [step, hphase]
    exact ⟨hml, hnn, by simp [hphase], by simp [hphase], fun _ => hle⟩
  case halted =>
    have hle := h3 (Or.inr (Or.inr (Or.inr hphase)))
    simp only [step, hphase]
    exact ⟨hml, hnn, by simp [hphase], by simp [hphase], fun _ => hle⟩

theorem LoopInv_iter (o : Oracle) (d : String) (cfg : Configuration) (ml : Option Int)
    (hM : 1 ≤ effMaxOf ml cfg) (n : Nat) (c : MachineConfig) (hI : LoopInv cfg ml c) :
    LoopInv cfg ml (iter o d cfg n c) := by
  induction n generalizing c with
  | zero => exact hI
  | succ n ih => exact ih (step o d cfg c) (LoopInv_step o d cfg ml hM c hI)

theorem LoopInv_count_le (cfg : Configuration) (ml : Option Int)
    (hM : 1 ≤ effMaxOf ml cfg) (c : MachineConfig) (hI : LoopInv cfg ml c) :
    c.state.research_loop_count ≤ effMaxOf ml cfg := by
  obtain ⟨hml, hnn, h1, h2, h3⟩ := hI
  cases hphase : c.phase
  case generatingQuery => have := h1 hphase; omega
  case researching qs => have := h2 (Or.inl ⟨qs, hphase⟩); omega
  case reflecting => have := h2 (Or.inr hphase); omega
  case routing => exact h3 (Or.inl hphase)
  case finalizing => exact h3 (Or.inr (Or.inl hphase))
  case done => exact h3 (Or.inr (Or.inr (Or.inl hphase)))
  case halted => exact h3 (Or.inr (Or.inr (Or.inr hphase)))

@[simp] theorem applyQueryDelta_query_list (st : OverallState)
    (dd : QueryGenerationDelta) :
    (applyQueryDelta st dd).query_list = dd.query_list := rfl

@[simp] theorem applyReflectionDelta_follow_up_queries (st : OverallState)
    (dd : ReflectionDelta) :
    (applyReflectionDelta st dd).follow_up_queries = dd.follow_up_queries := rfl

theorem stepsLeft_eq_zero (M : Int) (c : MachineConfig) (h : stepsLeft M c = 0) :
    isTerminal c = true := by
  cases hphase : c.phase
  case done => simp [isTerminal, hphase]
  case halted => simp [isTerminal, hphase]
  all_goals exact absurd h (by simp only [stepsLeft, hphase]; omega)

theorem stepsLeft_step_lt (o : Oracle) (d : String) (cfg : Configuration)
    (ml : Option Int) (c : MachineConfig) (hI : LoopInv cfg ml c)
    (hnt : isTerminal c = false) :
    stepsLeft (effMaxOf ml cfg) (step o d cfg c) < stepsLeft (effMaxOf ml cfg) c := by
  obtain ⟨hml, hnn, h1, h2, h3⟩ := hI
  cases hphase : c.phase
  case generatingQuery =>
    simp only [step, hphase]
    split
    · simp only [stepsLeft, hphase]
      omega
    · simp only [stepsLeft, hphase, applyQueryDelta_research_loop_count]
      omega
  case researching qs =>
    simp only [step, hphase, stepsLeft, applyWave_research_loop_count]
    omega
  case reflecting =>
    simp only [step, hphase, stepsLeft, applyReflectionDelta_research_loop_count,
      reflection_research_loop_count]
    omega
  case routing =>
    simp only [step, hphase]
    split
    · split
      · simp only [stepsLeft, hphase]
        omega
      · simp only [stepsLeft, hphase]
        omega
    · simp only [stepsLeft, hphase]
      omega
    · next s l hev =>
        obtain ⟨hsuff, hlt, hl⟩ := evaluate_research_sends c.state cfg _ hev
        rw [effectiveMaxLoops_eq c.state cfg ml hml] at hlt
        simp only [stepsLeft, hphase]
        omega
  case finalizing =>
    simp only [step, hphase, stepsLeft]
    omega
  case done => simp [isTerminal, hphase] at hnt
  case halted => simp [isTerminal, hphase] at hnt

theorem terminal_after (o : Oracle) (d : String) (cfg : Configuration)
    (ml : Option Int) (hM : 1 ≤ effMaxOf ml cfg) :
    ∀ (n : Nat) (c : MachineConfig), LoopInv cfg ml c →
      stepsLeft (effMaxOf ml cfg) c ≤ n → isTerminal (iter o d cfg n c) = true := by
  intro n
  induction n with
  | zero =>
      intro c hI hle
      exact stepsLeft_eq_zero (effMaxOf ml cfg) c (by omega)
  | succ n ih =>
      intro c hI hle
      by_cases ht : isTerminal c = true
      · rw [iter_terminal o d cfg c ht]
        exact ht
      · have hnt : isTerminal c = false := by
          cases hb : isTerminal c
          · rfl
          · exact absurd hb ht
        have hlt := stepsLeft_step_lt o d cfg ml c hI hnt
        exact ih (step o d cfg c) (LoopInv_step o d cfg ml hM c hI) (by omega)

theorem ProgressInv_init (question : String) (qc ml : Option Int)
    (rm am : Option String) : ProgressInv (initMachine question qc ml rm am) := by
  refine ⟨?_, ?_, ?_⟩ <;> intro h <;> simp [initMachine] at h ⊢

theorem ProgressInv_step (o : Oracle) (d : String) (cfg : Configuration)
    (hq : ∀ m p, o.genQueries m p ≠ [])
    (hf : ∀ m p, (o.reflectResult m p).follow_up_queries ≠ [])
    (c : MachineConfig) (hP : ProgressInv c) : ProgressInv (step o d cfg c) := by
  obtain ⟨hh, hr, hd⟩ := hP
  cases hphase : c.phase
  case generatingQuery =>
    simp only [step, hphase]
    split
    · next heq =>
        exfalso
        rw [continue_to_web_research, List.map_eq_nil_iff] at heq
        simp only [applyQueryDelta_query_list, generate_query] at heq
        exact hq _ _ heq
    · exact ⟨by simp, by simp, by simp⟩
  case researching qs =>
    simp only [step, hphase]
    exact ⟨by simp, by simp, by simp⟩
  case reflecting =>
    simp only [step, hphase]
    refine ⟨by simp, fun _ => ?_, by simp⟩
    simp only [applyReflectionDelta_follow_up_queries]
    exact hf _ _
  case routing =>
    have hfoll := hr hphase
    simp only [step, hphase]
    split
    · next name hev =>
        split
        · exact ⟨by simp, by simp, by simp⟩
        · next hne => exact absurd (evaluate_research_node_name c.state cfg name hev) hne
    · next hev =>
        exfalso
        obtain ⟨hsuff, hlt, hl⟩ := evaluate_research_sends c.state cfg _ hev
        rw [List.map_eq_nil_iff.mp hl.symm] at hfoll
        exact hfoll rfl
    · exact ⟨by simp, by simp, by simp⟩
  case finalizing =>
    simp only [step, hphase]
    exact ⟨by simp, by simp, fun _ => by simp⟩
  case done =>
    simp only [step, hphase]
    exact ⟨hh, hr, hd⟩
  case halted => exact absurd hphase hh

theorem ProgressInv_iter (o : Oracle) (d : String) (cfg : Configuration)
    (hq : ∀ m p, o.genQueries m p ≠ [])
    (hf : ∀ m p, (o.reflectResult m p).follow_up_queries ≠ [])
    (n : Nat) (c : MachineConfig) (hP : ProgressInv c) :
    ProgressInv (iter o d cfg n c) := by
  induction n generalizing c with
  | zero => exact hP
  | succ n ih => exact ih (step o d cfg c) (ProgressInv_step o d cfg hq hf c hP)

/-- C2 counterexample: with the configured ceiling 0 (no state override), the
state reached after the first reflection is a reachable state whose loop
counter 1 exceeds the effective ceiling 0 — the counter can exceed
`maxLoops` when `maxLoops < 1`, because the first reflection always
increments it before the guard is consulted. -/
theorem loop_ceiling_cex :
    (iter oInsufficient "d" cfgZeroLoops 3
      (initMachine "Q" none none none none)).state.research_loop_count = 1 ∧
    effMaxOf (initMachine "Q" none none none none).state.max_research_loops
      cfgZeroLoops = 0 ∧
    ¬((iter oInsufficient "d" cfgZeroLoops 3
      (initMachine "Q" none none none none)).state.research_loop_count ≤
        effMaxOf (initMachine "Q" none none none none).state.max_research_loops
          cfgZeroLoops) := by
  refine ⟨by decide, by decide, by decide⟩

/-- C2 amended: when the effective ceiling (override if present, else the
configured default) is at least 1, the loop counter never exceeds it at any
reachable state; every run reaches a terminal phase within `3·maxLoops + 5`
supersteps (the reflection loop-back cannot repeat forever); and whenever
query generation and every follow-up list are non-empty, that terminal phase
is `done` with `finalize_answer` executed. -/
theorem loop_ceiling_bounded (o : Oracle) (d : String) (cfg : Configuration)
    (question : String) (qc ml : Option Int) (rm am : Option String)
    (hM : 1 ≤ effMaxOf ml cfg) :
    (∀ n, (iter o d cfg n (initMachine question qc ml rm am)).state.research_loop_count ≤
      effMaxOf ml cfg) ∧
    (∀ n, 3 * (effMaxOf ml cfg).toNat + 5 ≤ n →
      isTerminal (iter o d cfg n (initMachine question qc ml rm am)) = true) ∧
    ((∀ m p, o.genQueries m p ≠ []) →
      (∀ m p, (o.reflectResult m p).follow_up_queries ≠ []) →
      ∀ n, 3 * (effMaxOf ml cfg).toNat + 5 ≤ n →
        (iter o d cfg n (initMachine question qc ml rm am)).phase = Phase.done ∧
        "finalize_answer" ∈ (iter o d cfg n (initMachine question qc ml rm am)).executed) := by
  have hInit := LoopInv_init cfg question qc ml rm am
  have hsl : stepsLeft (effMaxOf ml cfg) (initMachine question qc ml rm am) ≤
      3 * (effMaxOf ml cfg).toNat + 5 := by
    have hc : (initOverall question qc ml rm am).research_loop_count = 0 := rfl
    simp only [stepsLeft, initMachine, hc]
    omega
  refine ⟨?_, ?_, ?_⟩
  · intro n
    exact LoopInv_count_le cfg ml hM _ (LoopInv_iter o d cfg ml hM n _ hInit)
  · intro n hn
    exact terminal_after o d cfg ml hM n _ hInit (by omega)
  · intro hq hf n hn
    have hterm := terminal_after o d cfg ml hM n _ hInit (by omega)
    obtain ⟨hh, hr, hd⟩ :=
      ProgressInv_iter o d cfg hq hf n _ (ProgressInv_init question qc ml rm am)
    have hdone : (iter o d cfg n (initMachine question qc ml rm am)).phase =
        Phase.done := by
      cases hph : (iter o d cfg n (initMachine question qc ml rm am)).phase
      case done => rfl
      case halted => exact absurd hph hh
      case generatingQuery => simp [isTerminal, hph] at hterm
      case researching qs => simp [isTerminal, hph] at hterm
      case reflecting => simp [isTerminal, hph] at hterm
      case routing => simp [isTerminal, hph] at hterm
      case finalizing => simp [isTerminal, hph] at hterm
    exact ⟨hdone, hd hdone⟩

/-- C2 witness: the concrete always-insufficient oracle under ceiling 2
finishes in `done` with `finalize_answer` executed, within 11 supersteps. -/
theorem loop_ceiling_bounded_witness :
    (iter oInsufficient "d" cfgBase 11
      (initMachine "Q" none none none none)).phase = Phase.done ∧
    "finalize_answer" ∈ (iter oInsufficient "d" cfgBase 11
      (initMachine "Q" none none none none)).executed :=
  (loop_ceiling_bounded oInsufficient "d" cfgBase "Q" none none none none
      (by decide)).2.2 (fun m p => by simp [oInsufficient]) (fun m p => by simp [oInsufficient]) 11
    (by decide)

end Agent
